import Mathlib

/-!
# Verification of the hanuicast federated paper-search engine

Shallow embedding of the query/fetch/normalize/aggregate path of the
repository:

* `src/lib/paperSources.ts` — the source adapters (`fetchPubmedPapers`,
  `fetchKciPapers`, `fetchKampoPapers`, …) and their shared types
  (`Paper`, `SearchOptions`).
* `src/app/api/papers/route.ts` — the aggregation route `GET` (query
  clamp, Korean-detection, translation fallback, `Promise.allSettled`
  fan-out, combine + date sort, response assembly).
* `src/unnamed/part_003` — the variant of the route whose expansion
  trigger also fires on a category hint.

Conventions of the embedding:

* Promises that have been `allSettled` are `Except Unit (List Paper)`:
  `.ok` = fulfilled with an array, `.error` = rejected.
* Exceptions inside an adapter are modelled by an environment value
  (`KciFetchEnv`, `PubmedEnv`) describing how each network/parse step of
  the adapter's protocol turned out; the adapter body is a total function
  of that environment, mirroring the `try`/`catch` structure of the code.
* XML parse trees are modelled at the granularity of the extracted,
  already-flattened field strings (the `flattenText`/`getText`
  normalization of nested nodes is abstracted into the record fields);
  the falsy-`||` fallback chains on those strings are modelled exactly.
* `new Date(s).getTime()` is modelled by `parseDateMs`, covering the
  interoperable ECMA-262 Date Time String Format date-only forms
  `YYYY`, `YYYY-MM`, `YYYY-MM-DD` (interpreted at UTC midnight);
  implementation-defined fallback parses of other strings are modelled
  as unparsable (`none`, i.e. `NaN`).
* `Array.prototype.sort` with the route's comparator is modelled by a
  stable insertion sort over the ECMA `SortCompare` semantics, in which
  a comparator result of `NaN` (here: either date unparsable) counts
  as `+0`, i.e. "equal".
-/

namespace Hanuicast

/-- Field `Paper.source` — the source tag union of `src/lib/paperSources.ts`:
`'PubMed' | 'KCI' | 'KampoDB' | 'J-STAGE' | 'Semantic Scholar'`. -/
inductive Source where
  | pubmed
  | kci
  | kampoDB
  | jstage
  | semanticScholar
deriving DecidableEq, Repr

/-- The canonical record `Paper` of `src/lib/paperSources.ts`. -/
structure Paper where
  id : String
  title : String
  authors : String
  journal : String
  date : String
  abstract : String
  tags : List String
  originalUrl : String
  source : Source
  type : Option String := none
deriving DecidableEq, Repr

/-- The sort policy `'date' | 'relevance'` of `SearchOptions`. -/
inductive SortK where
  | date
  | relevance
deriving DecidableEq, Repr

/-- Options `SearchOptions` of `src/lib/paperSources.ts` (the fields the route
fills in; `mode` is a string because the route casts the query parameter
with `as any`).  `maxResults` is an `Int` because the route computes it
as `Math.min(parseInt(limit), 20)`. -/
structure SearchOptions where
  maxResults : Int
  sort : SortK
  mode : String
  fullTextOnly : Bool := false
  category : String := ""
deriving DecidableEq, Repr

/-! ## Date parsing: the model of `new Date(s).getTime()` -/

/-- ASCII decimal digit test. -/
def isDigitCh (c : Char) : Bool := '0' ≤ c ∧ c ≤ '9'

/-- Numeric value of a digit string (assumes `isDigitCh` holds of every
character). -/
def digitsVal (s : String) : Nat :=
  s.data.foldl (fun n c => 10 * n + (c.toNat - 48)) 0

/-- Split a string at every `-`, like `String.splitOn "-"` (implemented
over the character list so that proofs can evaluate it). -/
def splitDash (s : String) : List String :=
  let p := s.data.foldr
    (fun c (r : List Char × List (List Char)) =>
      if c = '-' then ([], r.1 :: r.2) else (c :: r.1, r.2))
    ([], [])
  (p.1 :: p.2).map String.mk

/-- Gregorian leap-year test. -/
def isLeapYear (y : Nat) : Bool := (y % 4 = 0 ∧ y % 100 ≠ 0) ∨ y % 400 = 0

/-- Number of days in month `m` (1–12) of year `y`. -/
def daysInMonth (y m : Nat) : Nat :=
  if m = 2 then (if isLeapYear y then 29 else 28)
  else if m = 4 ∨ m = 6 ∨ m = 9 ∨ m = 11 then 30
  else 31

/-- Days in the months strictly before month `m` (1–12) of a common year. -/
def monthPrefixDays (m : Nat) : Nat :=
  match m with
  | 1 => 0 | 2 => 31 | 3 => 59 | 4 => 90 | 5 => 120 | 6 => 151
  | 7 => 181 | 8 => 212 | 9 => 243 | 10 => 273 | 11 => 304 | 12 => 334
  | _ => 0

/-- Days in the proleptic-Gregorian years `0, …, y-1` (year 0 is a leap
year). -/
def daysFromYear0 (y : Nat) : Nat :=
  365 * y + (y + 3) / 4 - (y + 99) / 100 + (y + 399) / 400

/-- Day number of `y-m-d` counted from 0000-01-01.  The day number of the
Unix epoch 1970-01-01 on this scale is 719528. -/
def dayNumber (y m d : Nat) : Nat :=
  daysFromYear0 y + monthPrefixDays m
    + (if 2 < m ∧ isLeapYear y then 1 else 0) + (d - 1)

/-- Milliseconds since the Unix epoch of UTC midnight on `y-m-d`. -/
def msOfDate (y m d : Nat) : Int :=
  86400000 * ((dayNumber y m d : Int) - 719528)

/-- Model of `new Date(s).getTime()` for the strings this code base
produces: the date-only forms `YYYY`, `YYYY-MM`, `YYYY-MM-DD` of the
ECMA-262 Date Time String Format, interpreted at UTC midnight; every
out-of-bounds component and every other string yields `none` (JS
`NaN` / Invalid Date).  Implementation-defined fallback parses of
non-standard strings are modelled as unparsable. -/
def parseDateMs (s : String) : Option Int :=
  let isYear := fun (t : String) => t.length = 4 ∧ t.data.all isDigitCh
  let isMM := fun (t : String) =>
    t.length = 2 ∧ t.data.all isDigitCh ∧ 1 ≤ digitsVal t ∧ digitsVal t ≤ 12
  match splitDash s with
  | [y] => if isYear y then some (msOfDate (digitsVal y) 1 1) else none
  | [y, m] =>
    if isYear y ∧ isMM m then some (msOfDate (digitsVal y) (digitsVal m) 1)
    else none
  | [y, m, d] =>
    if isYear y ∧ isMM m ∧ d.length = 2 ∧ d.data.all isDigitCh
        ∧ 1 ≤ digitsVal d ∧ digitsVal d ≤ daysInMonth (digitsVal y) (digitsVal m)
    then some (msOfDate (digitsVal y) (digitsVal m) (digitsVal d))
    else none
  | _ => none

/-- Models `date.replace(/\//g, '-')` — the slash-to-dash rewrite the route's
comparator applies before `new Date`. -/
def slashToDash (s : String) : String :=
  String.mk (s.data.map fun c => if c = '/' then '-' else c)

/-- The parsed timestamp the route's comparator derives from a paper:
`new Date(p.date.replace(/\//g,'-')).getTime()`; `none` is `NaN`. -/
def paperTime (p : Paper) : Option Int := parseDateMs (slashToDash p.date)

/-! ## The route's sort

`[...pubmedPapers, ...kciPapers].sort((a, b) => dateB - dateA)` —
ECMA `SortCompare` turns a `NaN` comparator result into `+0`, so a pair
in which either date is unparsable compares "equal" and keeps its
stable relative order. -/

/-- The comparator value `dateB.getTime() - dateA.getTime()` after the
`NaN ↦ +0` step of `SortCompare`. -/
def jsCmp (a b : Paper) : Int :=
  match paperTime a, paperTime b with
  | some x, some y => y - x
  | _, _ => 0

/-- Holds when `a` needs not be placed after `b`: comparator value `≤ 0`. -/
def jsLe (a b : Paper) : Bool := jsCmp a b ≤ 0

/-- Stable insertion of `a` (an element originally positioned before
every element of `l`) into the already-sorted `l`: `a` goes in front of
the first element it does not compare strictly greater than. -/
def insertPaper (a : Paper) : List Paper → List Paper
  | [] => [a]
  | b :: l => if jsLe a b then a :: b :: l else b :: insertPaper a l

/-- Model of the route's `Array.prototype.sort` call: a stable sort by
the comparator `jsCmp`.  (For inputs on which the comparator is
consistent this agrees with every stable implementation; where the
comparator is inconsistent — mixed parsable/unparsable dates — ECMA
leaves the order implementation-defined and this stable insertion sort
is the model.) -/
def sortPapers (l : List Paper) : List Paper :=
  l.foldr insertPaper []

theorem insertPaper_perm (a : Paper) (l : List Paper) :
    (insertPaper a l).Perm (a :: l) := by
  induction l with
  | nil => simp [insertPaper]
  | cons b l ih =>
    by_cases h : jsLe a b
    · simp [insertPaper, h]
    · simp only [insertPaper, h, if_neg, Bool.false_eq_true, ite_false]
      exact (ih.cons b).trans (List.Perm.swap a b l)

theorem sortPapers_perm (l : List Paper) : (sortPapers l).Perm l := by
  induction l with
  | nil => rfl
  | cons a l ih =>
    exact (insertPaper_perm a (sortPapers l)).trans (ih.cons a)

theorem jsLe_total (a b : Paper) : jsLe a b = true ∨ jsLe b a = true := by
  unfold jsLe jsCmp
  cases ha : paperTime a <;> cases hb : paperTime b <;> simp
  omega

theorem chain'_insertPaper (a : Paper) (l : List Paper)
    (h : l.Chain' fun x y => jsLe x y = true) :
    (insertPaper a l).Chain' fun x y => jsLe x y = true := by
  induction l with
  | nil => simp [insertPaper]
  | cons b l ih =>
    rw [List.chain'_cons'] at h
    by_cases hab : jsLe a b
    · rw [insertPaper, if_pos hab, List.chain'_cons]
      exact ⟨hab, List.chain'_cons'.mpr h⟩
    · rw [insertPaper, if_neg hab, List.chain'_cons']
      refine ⟨?_, ih h.2⟩
      intro z hz
      cases l with
      | nil =>
        simp only [insertPaper, List.head?_cons, Option.mem_def,
          Option.some.injEq] at hz
        subst hz
        exact (jsLe_total a b).resolve_left hab
      | cons c l' =>
        by_cases hac : jsLe a c
        · rw [insertPaper, if_pos hac] at hz
          simp only [List.head?_cons, Option.mem_def, Option.some.injEq] at hz
          subst hz
          exact (jsLe_total a b).resolve_left hab
        · rw [insertPaper, if_neg hac] at hz
          simp only [List.head?_cons, Option.mem_def, Option.some.injEq] at hz
          subst hz
          exact h.1 c rfl

theorem sortPapers_chain (l : List Paper) :
    (sortPapers l).Chain' fun x y => jsLe x y = true := by
  induction l with
  | nil => simp [sortPapers]
  | cons a l ih => exact chain'_insertPaper a (sortPapers l) ih

/-! ## JS string helpers shared by the route and the adapters -/

/-- JS truthiness of an optional string: `undefined` and `''` are falsy.
`truthy x` is the value `x` contributes to a `||` fallback chain. -/
def truthy : Option String → Option String
  | some s => if s = "" then none else some s
  | none => none

/-- Models `a || b` on optional strings with JS falsiness. -/
def jsOrS (a b : Option String) : Option String :=
  (truthy a).orElse fun _ => truthy b

/-- JS `String.prototype.trim` (implemented over the character list). -/
def trimStr (s : String) : String :=
  String.mk (((s.data.dropWhile Char.isWhitespace).reverse.dropWhile
    Char.isWhitespace).reverse)

/-- Fuel-driven replace-all of the character pattern `pat` by `repl`
(the fuel is the length of the scanned list, enough because every step
consumes at least one character). -/
def replaceAllAux (pat repl : List Char) : Nat → List Char → List Char
  | 0, l => l
  | _ + 1, [] => []
  | fuel + 1, c :: cs =>
    if pat.isPrefixOf (c :: cs) then
      repl ++ replaceAllAux pat repl fuel ((c :: cs).drop pat.length)
    else c :: replaceAllAux pat repl fuel cs

/-- Replace every occurrence of `pat` in `s` by `repl` (for the
non-empty literal patterns this code base uses). -/
def replaceAll (pat repl s : String) : String :=
  String.mk (replaceAllAux pat.data repl.data s.data.length s.data)

/-- Models `list.join(', ')`. -/
def joinComma (l : List String) : String :=
  String.mk (List.intercalate (", ".data) (l.map String.data))

/-! ## The aggregation route `GET` of `src/app/api/papers/route.ts` -/

/-- The Korean-script test `/[ㄱ-ㅎ|ㅏ-ㅣ|가-힣]/.test(query)`.  The two
`|` inside the character class are literal pipe characters, so a query
containing `|` also counts as "Korean"; the named ranges are the Hangul
compatibility consonants and vowels (U+3131–U+3163) and the Hangul
syllables (U+AC00–U+D7A3). -/
def hasKoreanChar (s : String) : Bool :=
  s.data.any fun c =>
    (0x3131 ≤ c.toNat ∧ c.toNat ≤ 0x314E) ∨
    (0x314F ≤ c.toNat ∧ c.toNat ≤ 0x3163) ∨
    (0xAC00 ≤ c.toNat ∧ c.toNat ≤ 0xD7A3) ∨ c = '|'

/-- Models `response.text().trim().replace(/[".]/g, '')` — the cleanup the
route applies to the translation output. -/
def cleanTranslation (t : String) : String :=
  String.mk ((trimStr t).data.filter fun c => ¬(c = '"' ∨ c = '.'))

/-- Models `replace(/^```|```$/g, '')` — strip a leading and a trailing
triple-backtick fence. -/
def stripTicks (s : String) : String :=
  let l := s.data
  let fence := "```".data
  let l1 := if fence.isPrefixOf l then l.drop 3 else l
  let l2 := if fence.isSuffixOf l1 then l1.take (l1.length - 3) else l1
  String.mk l2

/-- The cleanup of the `src/unnamed/part_003` route variant:
trim, strip quotes and dots, strip code fences, trim again. -/
def cleanTranslationExp (t : String) : String :=
  trimStr (stripTicks (cleanTranslation t))

/-- The `meta` object the route returns alongside the papers. -/
structure Meta where
  query : String
  translatedQuery : Option String
  pubmedCount : Nat
  kciCount : Nat
  totalCount : Nat
deriving DecidableEq, Repr

/-- The JSON payload of a successful route response; `meta = none`
models the `{ papers: [] }` short-circuit response that carries no
`meta` field. -/
structure PapersPayload where
  papers : List Paper
  meta : Option Meta
deriving DecidableEq, Repr

/-- A settled adapter promise as seen after `Promise.allSettled`:
`.ok` = fulfilled with a `Paper[]`, `.error` = rejected. -/
abbrev Settled := Except Unit (List Paper)

/-- Models `(result.status === 'fulfilled' && Array.isArray(result.value)) ?
result.value : []` — the zero-contribution conversion the route applies
to each settled adapter outcome. -/
def contribOf (o : Settled) : List Paper := o.toOption.getD []

/-- The options object the route builds: `maxResults` is clamped by
`Math.min(limit, 20)` before any backend is called. -/
def routeOptions (limit : Int) (sort : SortK) (mode : String) : SearchOptions :=
  ⟨min limit 20, sort, mode, false, ""⟩

/-- Step 1 of the route: the query sent to PubMed.  Expansion runs only
when the Korean test fires; the `catch` keeps the original query on a
translation failure. -/
def routeEnglishQuery (query : String) (translate : Except Unit String) : String :=
  if hasKoreanChar query then
    match translate with
    | .ok t => cleanTranslation t
    | .error _ => query
  else query

/-- The route handler `GET` of `src/app/api/papers/route.ts`, as a
function of the parsed request parameters, the outcome of the
translation call (`.error` = the Gemini call threw) and the two adapter
oracles (each returning the settled outcome of its promise for the
query/options it is invoked with).  The `Except.error` result models the
500 response of the final `catch`; the combine step of the model is
total, so it is never produced — faithfully to the code, where that
`catch` guards only the sort/serialize step, not the adapter calls. -/
def GET (query : String) (limit : Int) (sort : SortK) (mode : String)
    (translate : Except Unit String)
    (pubmedFetch kciFetch : String → SearchOptions → Settled) :
    Except String PapersPayload :=
  if query = "" then .ok ⟨[], none⟩
  else
    let options := routeOptions limit sort mode
    let englishQuery := routeEnglishQuery query translate
    let pubmedPapers := contribOf (pubmedFetch englishQuery options)
    let kciPapers := contribOf (kciFetch query options)
    let combined := sortPapers (pubmedPapers ++ kciPapers)
    .ok ⟨combined,
      some ⟨query, (if englishQuery = query then none else some englishQuery),
        pubmedPapers.length, kciPapers.length, combined.length⟩⟩

/-- Expansion trigger of the `src/unnamed/part_003` route variant:
Korean script in the query *or* a category hint. -/
def expandTrigger (query category : String) : Bool :=
  hasKoreanChar query || category ≠ ""

/-- Options of the `src/unnamed/part_003` route variant (adds
`fullTextOnly` and `category`). -/
def expOptions (limit : Int) (sort : SortK) (mode : String)
    (fullTextOnly : Bool) (category : String) : SearchOptions :=
  ⟨min limit 20, sort, mode, fullTextOnly, category⟩

/-- The PubMed query of the `src/unnamed/part_003` route variant. -/
def expEnglishQuery (query category : String)
    (translate : Except Unit String) : String :=
  if expandTrigger query category then
    match translate with
    | .ok t => cleanTranslationExp t
    | .error _ => query
  else query

/-- The route handler `GET` of `src/unnamed/part_003`: the variant whose
semantic query expansion also fires on a category hint and which passes
`fullTextOnly`/`category` through to the adapters.  Steps 2 and 3 are
identical to `GET`. -/
def GETexpanded (query : String) (limit : Int) (sort : SortK) (mode : String)
    (fullTextOnly : Bool) (category : String)
    (translate : Except Unit String)
    (pubmedFetch kciFetch : String → SearchOptions → Settled) :
    Except String PapersPayload :=
  if query = "" then .ok ⟨[], none⟩
  else
    let options := expOptions limit sort mode fullTextOnly category
    let englishQuery := expEnglishQuery query category translate
    let pubmedPapers := contribOf (pubmedFetch englishQuery options)
    let kciPapers := contribOf (kciFetch query options)
    let combined := sortPapers (pubmedPapers ++ kciPapers)
    .ok ⟨combined,
      some ⟨query, (if englishQuery = query then none else some englishQuery),
        pubmedPapers.length, kciPapers.length, combined.length⟩⟩

/-! ## The KCI adapter `fetchKciPapers` of `src/lib/paperSources.ts`

The XML record is modelled at the granularity of the extracted,
already-flattened field strings (`getText`/`flattenText` applied to the
nested nodes is abstracted into the `Option String` fields; `none`
stands for an absent node, `some ""` for a node that flattens to the
empty string — both are falsy in the `||` chains). -/

/-- One `<record>` of the KCI response, pre-flattened. -/
structure KciRecord where
  /-- Node `articleInfo['@_article-id']`. -/
  attrArticleId : Option String := none
  /-- Node `record.articleId`. -/
  articleId : Option String := none
  /-- Node `record.id`. -/
  recId : Option String := none
  /-- Node `articleInfo['title-group']['article-title'] || record.title`,
  flattened. -/
  title : Option String := none
  /-- The flattened author names of `articleInfo['author-group']`
  (`none` = no author group in the record). -/
  authors : Option (List String) := none
  /-- Node `record.authorName`, flattened. -/
  authorName : Option String := none
  /-- Node `journalInfo['journal-name'] || record.journalName`, flattened. -/
  journalName : Option String := none
  /-- Node `journalInfo['pub-year'] || record.pubYear`, flattened. -/
  pubYear : Option String := none
  /-- The preferred (`original`/`korean`, else first) abstract of
  `articleInfo['abstract-group']`, flattened; `none` = no group. -/
  abstract : Option String := none
  /-- Node `articleInfo['article-categories']['subj-group']['subject']`,
  flattened. -/
  subject : Option String := none
deriving DecidableEq, Repr

/-- The tokenization-artifact repair applied to KCI titles and
abstracts: `replace(/회전근\s+개/g, '회전근개')` (the whitespace run is
modelled by the single-space form the repair targets). -/
def kciFixSpacing (s : String) : String := replaceAll "회전근 개" "회전근개" s

/-- Substring test (used for the subject-based record-type heuristic). -/
def containsSub (needle s : String) : Bool :=
  List.any (List.range (s.data.length + 1)) fun i =>
    needle.data.isPrefixOf (s.data.drop i)

/-- Models `articleInfo['@_article-id'] || record.articleId || record.id` —
the recoverable native identifier of a KCI record, if any. -/
def kciNativeId (r : KciRecord) : Option String :=
  jsOrS r.attrArticleId (jsOrS r.articleId r.recId)

/-- The `articleId` value used in `id` and `originalUrl`: the native
identifier, or the `Math.random().toString(36).substring(7)` draw
`rand` when none is recoverable. -/
def kciArticleIdVal (r : KciRecord) (rand : String) : String :=
  (kciNativeId r).getD rand

/-- The record-type heuristic on the flattened subject text. -/
def kciType (r : KciRecord) : String :=
  match truthy r.subject with
  | some sub =>
    if containsSub "사례" sub ∨ containsSub "증례" sub then "Case Report"
    else if containsSub "리뷰" sub ∨ containsSub "검토" sub then "Review"
    else "Journal Article"
  | none => "Journal Article"

/-- The canonical `Paper` built from one KCI record (the body of the
`recordList.map` callback). -/
def kciRecordToPaper (rand : String) (r : KciRecord) : Paper :=
  let articleId := kciArticleIdVal r rand
  let title := kciFixSpacing ((truthy r.title).getD "Untitled")
  let authors :=
    match r.authors with
    | some l => joinComma (l.filter fun s => s ≠ "")
    | none => (truthy r.authorName).getD "Unknown Authors"
  let journal := (truthy r.journalName).getD "Unknown Journal"
  let pubYear := (truthy r.pubYear).getD "Unknown Date"
  let abstract := (truthy (r.abstract.map kciFixSpacing)).getD
    "[KCI Article] Click to view details."
  { id := "kci_" ++ articleId
    title := title
    authors := if authors = "" then "Unknown Authors" else authors
    journal := if journal = "" then "Unknown Journal" else journal
    date := if pubYear = "" then "Unknown Date" else pubYear
    abstract := abstract
    tags := ["KCI"]
    originalUrl :=
      "https://www.kci.go.kr/kciportal/ci/sereArticleSearch/ciSereArtiView.kci?sereArticleSearchBean.artiId="
        ++ articleId
    source := .kci
    type := some (kciType r) }

/-- How the KCI adapter's single-fetch protocol turned out.  Each
constructor is one control-flow exit of the function body; `rand` draws
for unrecoverable identifiers are paired with their records. -/
inductive KciFetchEnv where
  /-- Case `process.env.KCI_API_KEY` is absent. -/
  | noKey
  /-- Case `fetchWithTimeout`/`res.text()`/`xmlParser.parse` threw
  (timeout, network error, parse error) — caught by the `catch`. -/
  | thrown
  /-- Case `!res.ok` with the given HTTP status. -/
  | httpError (status : Nat)
  /-- Parsed, but no `record` node under `MetaData.outputData` or
  `result.outputData`. -/
  | parsedNoRecords
  /-- Parsed records (singletons are already wrapped into a list, as by
  `Array.isArray(records) ? records : [records]`), each paired with the
  `Math.random` draw it would use if its identifier is unrecoverable. -/
  | parsedRecords (rl : List (KciRecord × String))
deriving DecidableEq, Repr

/-- Adapter `fetchKciPapers` of `src/lib/paperSources.ts` as a function of the
fetch environment.  The result is the settled outcome of the returned
promise; every path of the source returns an array (the `catch`
returns `[]`), so every branch is `.ok`. -/
def fetchKciPapers (query : String) (env : KciFetchEnv)
    (_opts : SearchOptions) : Settled :=
  if query = "" then .ok []
  else
    match env with
    | .noKey => .ok []
    | .thrown => .ok []
    | .httpError _ => .ok []
    | .parsedNoRecords => .ok []
    | .parsedRecords rl => .ok (rl.map fun p => kciRecordToPaper p.2 p.1)

/-! ## The PubMed adapter `fetchPubmedPapers` of `src/lib/paperSources.ts` -/

/-- The `<Article>` payload of one `<PubmedArticle>`, pre-flattened. -/
structure PubmedArticleFields where
  /-- Node `flattenText(article.ArticleTitle)`. -/
  title : Option String := none
  /-- The `(LastName, Initials)` pairs of `AuthorList.Author`
  (`none` = no author list). -/
  authors : Option (List (Option String × Option String)) := none
  /-- Node `flattenText(article.Journal?.Title)`. -/
  journalTitle : Option String := none
  /-- Node `Journal.JournalIssue.PubDate`: the flattened `(Year, Month)`
  pair; `none` = no `PubDate` node. -/
  pubDate : Option (Option String × Option String) := none
  /-- Node `flattenText(article.Abstract.AbstractText)` (`none` = no
  abstract node). -/
  abstract : Option String := none
  /-- The flattened `PublicationTypeList.PublicationType` entries
  (`none` = no list). -/
  pubTypes : Option (List String) := none
deriving DecidableEq, Repr

/-- One `<PubmedArticle>` of the batch EFetch response. -/
structure PubmedArticle where
  /-- Node `MedlineCitation.PMID` (its `#text` or the plain value). -/
  pmid : Option String := none
  /-- Node `MedlineCitation.Article`; `none` triggers the
  unexpected-structure placeholder. -/
  article : Option PubmedArticleFields := none
deriving DecidableEq, Repr

/-- Models `pmid || 'unknown'`. -/
def pmidVal (a : PubmedArticle) : String := (truthy a.pmid).getD "unknown"

/-- The abstract-artifact repair
`replace(/(\s*P){3,}\s*/g, ' ')` : at each position, a maximal run of
three or more whitespace-preceded `P`s plus trailing whitespace
collapses to a single space.  `pTake` counts the `(\s*P)` repetitions
that match at the given position. -/
def pTakeAux : Nat → List Char → Nat → Nat × List Char
  | 0, l, n => (n, l)
  | fuel + 1, l, n =>
    match l.dropWhile Char.isWhitespace with
    | 'P' :: r => pTakeAux fuel r (n + 1)
    | _ => (n, l)

/-- Count the `(\s*P)` repetitions matching at the head of `l`. -/
def pTake (l : List Char) (n : Nat) : Nat × List Char :=
  pTakeAux l.length l n

/-- Fuel-driven scan applying the `(\s*P){3,}\s*` → `' '` rewrite
left-to-right. -/
def fixPRunsAux : Nat → List Char → List Char
  | 0, l => l
  | _ + 1, [] => []
  | fuel + 1, c :: cs =>
    let t := pTake (c :: cs) 0
    if 3 ≤ t.1 then ' ' :: fixPRunsAux fuel (t.2.dropWhile Char.isWhitespace)
    else c :: fixPRunsAux fuel cs

/-- Models `abstractText.replace(/(\s*P){3,}\s*/g, ' ').trim()`. -/
def fixPRuns (s : String) : String :=
  trimStr (String.mk (fixPRunsAux s.data.length s.data))

/-- The publication types the adapter promotes to the record type. -/
def priorityTypes : List String :=
  ["Meta-Analysis", "Systematic Review", "Clinical Trial", "Case Reports",
    "Review"]

/-- The canonical `Paper` built from one batch-EFetch article (the body
of the `articles.map` callback), including the unexpected-structure
placeholder for articles without an `Article` node. -/
def pubmedArticleToPaper (a : PubmedArticle) : Paper :=
  let pmid := pmidVal a
  match a.article with
  | none =>
    { id := "pubmed_" ++ pmid
      title := "[PubMed] 상세 정보를 가져올 수 없습니다 (ID: " ++ pmid ++ ")"
      authors := "N/A"
      journal := "PubMed"
      date := "Unknown"
      abstract := "상세 정보를 불러오는 중 데이터 구조가 예상과 달랐습니다."
      tags := ["PubMed"]
      originalUrl := "https://pubmed.ncbi.nlm.nih.gov/" ++ pmid ++ "/"
      source := .pubmed
      type := none }
  | some f =>
    let authorStr :=
      match f.authors with
      | some l => joinComma (l.map fun p =>
          trimStr ((p.1.getD "") ++ " " ++ (p.2.getD "")))
      | none => "Unknown Authors"
    let dateStr :=
      match f.pubDate with
      | some p => trimStr ((p.1.getD "") ++ " " ++ (p.2.getD ""))
      | none => "Unknown Date"
    let abstractText :=
      match f.abstract with
      | some t => fixPRuns t
      | none => "No abstract available."
    let type :=
      match f.pubTypes with
      | some pts => ((pts.find? fun pt => priorityTypes.contains pt).getD
          (pts.headD ""))
      | none => "Journal Article"
    { id := "pubmed_" ++ pmid
      title := (truthy f.title).getD "Untitled"
      authors := authorStr
      journal := (truthy f.journalTitle).getD "Unknown Journal"
      date := dateStr
      abstract := abstractText
      tags := ["PubMed"]
      originalUrl := "https://pubmed.ncbi.nlm.nih.gov/" ++ pmid ++ "/"
      source := .pubmed
      type := some type }

/-- The degraded placeholder emitted for each already-resolved
identifier when the adapter's `catch` fires after phase 1 (the body of
the `ids.map` callback of the catch branch). -/
def pubmedPlaceholder (id : String) : Paper :=
  { id := "pubmed_" ++ id
    title := "PubMed Article (ID: " ++ id ++ ")"
    authors := "Details unavailable"
    journal := "PubMed"
    date := "Unknown"
    abstract := "[PubMed ID: " ++ id ++ "] Failed to load details due to timeout."
    tags := ["PubMed"]
    originalUrl := "https://pubmed.ncbi.nlm.nih.gov/" ++ id ++ "/"
    source := .pubmed
    type := none }

/-- Phase 1 (ESearch): either the fetch/JSON step threw, or it produced
an identifier list (`esearchresult.idlist || []`). -/
inductive EsearchOutcome where
  | thrown
  | idlist (ids : List String)
deriving DecidableEq, Repr

/-- Phase 2 (batch EFetch): either some step threw — the fetch, the
`!res.ok` `throw`, `res.text()` or the XML parse — or it produced the
(possibly singleton-wrapped) `PubmedArticle` list. -/
inductive BatchOutcome where
  | thrown
  | articles (arts : List PubmedArticle)
deriving DecidableEq, Repr

/-- How the PubMed adapter's two-phase protocol turned out. -/
structure PubmedEnv where
  esearch : EsearchOutcome
  batch : BatchOutcome
deriving DecidableEq, Repr

/-- Adapter `fetchPubmedPapers` of `src/lib/paperSources.ts` as a function of
the fetch environment.  The `catch` returns the per-identifier
placeholders when phase 1 had already resolved identifiers (`ids` is
still in scope) and `[]` otherwise; every path returns an array, so
every branch is `.ok`. -/
def fetchPubmedPapers (query : String) (env : PubmedEnv)
    (_opts : SearchOptions) : Settled :=
  if query = "" then .ok []
  else
    match env.esearch with
    | .thrown => .ok []
    | .idlist ids =>
      if ids.isEmpty then .ok []
      else
        match env.batch with
        | .thrown => .ok (ids.map pubmedPlaceholder)
        | .articles arts => .ok (arts.map pubmedArticleToPaper)

/-! ## The KampoDB (formulary) adapter of `src/lib/paperSources.ts` -/

/-- The joined results of the three parallel sub-fetches of
`fetchKampoFormulaDetails` for one formula id (`none` entries model a
failed `crude`/`disease` sub-fetch, whose bodies default to `[]`). -/
structure KampoDetails where
  /-- Node `info.name` (the basic-info fetch succeeded if this record
  exists at all: `!infoRes.ok` yields no record). -/
  name : String
  /-- Node `info.name_jp`. -/
  nameJp : String
  /-- The `name` fields of the ingredient list. -/
  crudes : List String := []
  /-- The `name` fields of the indication list. -/
  diseases : List String := []
  /-- Models `new Date().toLocaleDateString('ja-JP')` — the synthesized
  "today" date stamped on the record. -/
  today : String
deriving DecidableEq, Repr

/-- The canonical `Paper` built by `fetchKampoFormulaDetails` for one
formula id. -/
def kampoFormulaPaper (id : String) (d : KampoDetails) : Paper :=
  let crudeList := joinComma d.crudes
  let diseaseList := joinComma (d.diseases.take 5)
  { id := "kampodb_" ++ id
    title := "[한방] " ++ d.name ++ " (" ++ d.nameJp ++ ")"
    authors := "Toyama University (KampoDB)"
    journal := "KampoDB (WAKAN-YAKU Research)"
    date := d.today
    abstract :=
      "[구성 약재] " ++ (if crudeList = "" then "정보 없음" else crudeList)
        ++ "\n\n[주요 적응증/활성] "
        ++ (if diseaseList = "" then "정보 없음" else diseaseList)
        ++ "\n\n* KampoDB 데이터를 기반으로 생성된 정보입니다. 상세 기전 및 근거는 KampoDB 홈페이지에서 확인할 수 있습니다."
    tags := ["Kampo", "Traditional Medicine"]
    originalUrl := "https://wakanmoview.inm.u-toyama.ac.jp/kampo/formula/" ++ id
    source := .kampoDB
    type := some "Formula" }

/-- Adapter `fetchKampoPapers` of `src/lib/paperSources.ts`: per recommended
formula id, the three-way sub-fetch either yields details or `null`
(`!infoRes.ok`, or a thrown sub-fetch caught per id); the `null`s are
filtered out.  An empty id list returns `[]` without any fetch. -/
def fetchKampoPapers (formulaIds : List String)
    (details : String → Option KampoDetails) : List Paper :=
  if formulaIds.isEmpty then []
  else formulaIds.filterMap fun id => (details id).map (kampoFormulaPaper id)

/-- Modelled from the spec: the aggregation step of §4.4 that handles
the formulary backend is missing from `src/` — the route under
`src/app/api/papers/route.ts` invokes only the PubMed and KCI adapters
(while `src/app/page.tsx` styles `kampodb_` records returned by
`/api/papers`, so a fuller route exists outside `src/`).  Per the spec:
(1) sort by publication date descending, best-effort-parsed; (2) pin
the formulary backend's records first regardless of date; (3) truncate
to `maxResults`. -/
def aggregateKampoPinned (maxResults : Nat) (kampo others : List Paper) :
    List Paper :=
  (kampo ++ sortPapers others).take maxResults

/-! ## The ordering predicate claimed for the default sort -/

/-- The claimed adjacent-pair relation of the default sort: the later
record's date is unparsable (unparsable dates sort "oldest"/last), or
both parse and the earlier record's timestamp is ≥ the later one's. -/
def dateGeB (a b : Paper) : Bool :=
  match paperTime b with
  | none => true
  | some y =>
    match paperTime a with
    | some x => y ≤ x
    | none => false

/-- Every adjacent pair of `l` satisfies `dateGeB`. -/
def chainDateGe : List Paper → Bool
  | [] => true
  | [_] => true
  | a :: b :: l => dateGeB a b && chainDateGe (b :: l)

/-- The claimed shape of a merged result under the default sort:
every adjacent pair satisfies `dateGeB` (parsed dates monotonically
descending, unparsable dates only at the end). -/
def claimSortOrdered (l : List Paper) : Prop := chainDateGe l = true

instance (l : List Paper) : Decidable (claimSortOrdered l) :=
  inferInstanceAs (Decidable (chainDateGe l = true))

instance {ε α : Type} [DecidableEq ε] [DecidableEq α] :
    DecidableEq (Except ε α) := fun a b =>
  match a, b with
  | .ok x, .ok y =>
    if h : x = y then .isTrue (by rw [h]) else .isFalse (by simp [h])
  | .error x, .error y =>
    if h : x = y then .isTrue (by rw [h]) else .isFalse (by simp [h])
  | .ok _, .error _ => .isFalse (by simp)
  | .error _, .ok _ => .isFalse (by simp)

/-! ## Helper lemmas -/

theorem string_append_left_cancel {p x y : String} (h : p ++ x = p ++ y) :
    x = y := by
  have hd := congrArg String.data h
  rw [String.data_append, String.data_append] at hd
  exact String.ext (List.append_cancel_left hd)

theorem pubmed_id_ne_kci_id (x y : String) :
    "pubmed_" ++ x ≠ "kci_" ++ y := by
  intro h
  have hd := congrArg String.data h
  rw [String.data_append, String.data_append] at hd
  injection hd with h1 _
  exact absurd h1 (by decide)

theorem pubmedArticleToPaper_id (a : PubmedArticle) :
    (pubmedArticleToPaper a).id = "pubmed_" ++ pmidVal a := by
  cases h : a.article <;> simp [pubmedArticleToPaper, h]

theorem kciRecordToPaper_id (rand : String) (r : KciRecord) :
    (kciRecordToPaper rand r).id = "kci_" ++ kciArticleIdVal r rand := rfl

theorem fetchKampoPapers_source (ids : List String)
    (details : String → Option KampoDetails) :
    ∀ p ∈ fetchKampoPapers ids details, p.source = Source.kampoDB := by
  intro p hp
  unfold fetchKampoPapers at hp
  by_cases hids : ids.isEmpty
  · simp [hids] at hp
  · rw [if_neg hids] at hp
    obtain ⟨id, _, hid⟩ := List.mem_filterMap.mp hp
    obtain ⟨d, _, hd⟩ := Option.map_eq_some'.mp hid
    rw [← hd]
    rfl

theorem contribOf_ok (l : List Paper) : contribOf (.ok l) = l := rfl

theorem contribOf_error : contribOf (.error ()) = [] := rfl

theorem chainDateGe_of_chain' (l : List Paper)
    (hl : l.Chain' fun a b => jsLe a b = true)
    (hp : ∀ p ∈ l, (paperTime p).isSome) : chainDateGe l = true := by
  induction l with
  | nil => rfl
  | cons a t ih =>
    cases t with
    | nil => rfl
    | cons b t' =>
      rw [List.chain'_cons] at hl
      obtain ⟨x, hx⟩ := Option.isSome_iff_exists.mp (hp a (by simp))
      obtain ⟨y, hy⟩ := Option.isSome_iff_exists.mp (hp b (by simp))
      have hle := of_decide_eq_true hl.1
      simp only [jsCmp, hx, hy] at hle
      have hxy : y ≤ x := by omega
      have hd : dateGeB a b = true := by
        simp only [dateGeB, hx, hy]
        exact decide_eq_true hxy
      rw [show chainDateGe (a :: b :: t')
          = (dateGeB a b && chainDateGe (b :: t')) from rfl, hd, Bool.true_and]
      exact ih hl.2 fun p hmem => hp p (List.mem_cons_of_mem a hmem)

/-! ## Sample data used by witnesses and counterexamples

`samplePubmedPaper` and `sampleKciPaper` are the two entries of the
`MOCK_PAPERS` fallback array of `src/lib/paperSources.ts`. -/

def samplePubmedPaper : Paper :=
  ⟨"mock_1", "Acupuncture for Chronic Pain: A Randomized Clinical Trial",
    "Kim J, Lee S, Park H", "Journal of Korean Medicine", "2024/01/15",
    "This study investigates the effects of acupuncture on chronic pain management...",
    ["Acupuncture", "Pain Management"], "https://pubmed.ncbi.nlm.nih.gov/",
    .pubmed, none⟩

def sampleKciPaper : Paper :=
  ⟨"mock_2", "Herbal Medicine (Bojungikgi-tang) for Fatigue: Systemic Review",
    "Choi M, Jeong Y", "Integrative Medicine Research", "2023/11/20",
    "A systematic review of Bojungikgi-tang for treating chronic fatigue syndrome...",
    ["Herbal Medicine", "Fatigue"], "https://www.kci.go.kr/", .kci, none⟩

/-- A paper whose `date` no engine can parse (`new Date("Unknown")` is
an Invalid Date) — the shape the PubMed adapter produces for records
without a `PubDate` (placeholder paths use `date: 'Unknown'`). -/
def paperUnknownDate : Paper :=
  ⟨"pubmed_111", "A PubMed paper", "A", "J", "Unknown", "x", ["PubMed"],
    "https://pubmed.ncbi.nlm.nih.gov/111/", .pubmed, none⟩

/-- A paper with a year-only date, as the KCI adapter produces
(`pub-year`). -/
def paperYear2024 : Paper :=
  ⟨"kci_222", "A KCI paper", "B", "K", "2024", "y", ["KCI"],
    "https://www.kci.go.kr/", .kci, none⟩

/-- A second year-only paper, older. -/
def paperYear2020 : Paper :=
  ⟨"kci_333", "Another KCI paper", "C", "K", "2020", "z", ["KCI"],
    "https://www.kci.go.kr/", .kci, none⟩

/-- A KCI record carrying a native `@_article-id`. -/
def sampleKciRecord : KciRecord :=
  { attrArticleId := some "ART001"
    title := some "A title"
    journalName := some "A journal"
    pubYear := some "2023" }

/-! ## C1 — partial adapter failure never empties or errors the response -/

/-- C1: when one adapter fulfills with a record list and the other
rejects, the route's response is a successful payload whose records are
exactly (a permutation of — the route only reorders) the succeeding
adapter's records; the rejected adapter contributes zero records and no
request-level error is produced. -/
theorem aggregator_partial_failure (query : String) (limit : Int)
    (sort : SortK) (mode : String) (tr : Except Unit String)
    (pm kc : List Paper) (hq : query ≠ "") :
    (∃ payload, GET query limit sort mode tr
        (fun _ _ => .ok pm) (fun _ _ => .error ()) = .ok payload
      ∧ payload.papers.Perm pm) ∧
    (∃ payload, GET query limit sort mode tr
        (fun _ _ => .error ()) (fun _ _ => .ok kc) = .ok payload
      ∧ payload.papers.Perm kc) := by
  have h1 : GET query limit sort mode tr
      (fun _ _ => .ok pm) (fun _ _ => .error ())
      = .ok ⟨sortPapers (pm ++ []),
          some ⟨query,
            if routeEnglishQuery query tr = query then none
              else some (routeEnglishQuery query tr),
            pm.length, 0, (sortPapers (pm ++ [])).length⟩⟩ := by
    unfold GET
    rw [if_neg hq]
    rfl
  have h2 : GET query limit sort mode tr
      (fun _ _ => .error ()) (fun _ _ => .ok kc)
      = .ok ⟨sortPapers ([] ++ kc),
          some ⟨query,
            if routeEnglishQuery query tr = query then none
              else some (routeEnglishQuery query tr),
            0, kc.length, (sortPapers ([] ++ kc)).length⟩⟩ := by
    unfold GET
    rw [if_neg hq]
    rfl
  exact ⟨⟨_, h1, by simpa using sortPapers_perm pm⟩,
    ⟨_, h2, by simpa using sortPapers_perm kc⟩⟩

theorem aggregator_partial_failure_witness :
    ("acupuncture" ≠ "") ∧
    ((∃ payload, GET "acupuncture" 10 .date "general" (.error ())
        (fun _ _ => .ok [samplePubmedPaper]) (fun _ _ => .error ()) = .ok payload
      ∧ payload.papers.Perm [samplePubmedPaper]) ∧
    (∃ payload, GET "acupuncture" 10 .date "general" (.error ())
        (fun _ _ => .error ()) (fun _ _ => .ok [sampleKciPaper]) = .ok payload
      ∧ payload.papers.Perm [sampleKciPaper])) :=
  ⟨by decide,
    aggregator_partial_failure "acupuncture" 10 .date "general" (.error ())
      [samplePubmedPaper] [sampleKciPaper] (by decide)⟩

/-! ## C5 — empty query short-circuits -/

/-- C5: an empty `rawQuery` returns `{ papers: [] }` (no `meta` field)
immediately; the result does not depend on the translation outcome or
on either adapter oracle, i.e. neither the expansion service nor any
backend is consulted. -/
theorem empty_query_short_circuits (limit : Int) (sort : SortK)
    (mode : String) (tr : Except Unit String)
    (pubmedFetch kciFetch : String → SearchOptions → Settled) :
    GET "" limit sort mode tr pubmedFetch kciFetch = .ok ⟨[], none⟩ := rfl

/-! ## C10 — the PubMed and KCI adapters never reject -/

/-- C10: for every query, options and fetch environment (covering
every network/HTTP/parse failure point of both protocols), the PubMed
and KCI adapter promises settle fulfilled with an array — so the
`status === 'rejected'` branches the route keeps for them are
unreachable. -/
theorem adapters_never_reject (q : String) (penv : PubmedEnv)
    (kenv : KciFetchEnv) (opts : SearchOptions) :
    (∃ l, fetchPubmedPapers q penv opts = .ok l) ∧
    (∃ l, fetchKciPapers q kenv opts = .ok l) := by
  constructor
  · unfold fetchPubmedPapers
    by_cases hq : q = ""
    · exact ⟨[], by rw [if_pos hq]⟩
    · rw [if_neg hq]
      obtain ⟨es, ba⟩ := penv
      cases es with
      | thrown => exact ⟨[], rfl⟩
      | idlist ids =>
        by_cases hids : ids.isEmpty
        · exact ⟨[], by simp [hids]⟩
        · cases ba with
          | thrown => exact ⟨ids.map pubmedPlaceholder, by simp [hids]⟩
          | articles arts =>
            exact ⟨arts.map pubmedArticleToPaper, by simp [hids]⟩
  · unfold fetchKciPapers
    by_cases hq : q = ""
    · exact ⟨[], by rw [if_pos hq]⟩
    · rw [if_neg hq]
      cases kenv with
      | noKey => exact ⟨[], rfl⟩
      | thrown => exact ⟨[], rfl⟩
      | httpError st => exact ⟨[], rfl⟩
      | parsedNoRecords => exact ⟨[], rfl⟩
      | parsedRecords rl =>
        exact ⟨rl.map fun p => kciRecordToPaper p.2 p.1, rfl⟩

/-! ## C2 — the merged list is *not* truncated to `maxResults` -/

/-- C2 counterexample: with `limit = 1` the clamp yields
`maxResults = 1` and each adapter is asked for at most one record, yet
when both adapters contribute one record each the route returns both —
the merged list is never sliced to `maxResults`, refuting
`len(records) <= maxResults`. -/
theorem merged_exceeds_maxResults :
    GET "acupuncture" 1 .date "general" (.error ())
        (fun _ _ => .ok [samplePubmedPaper]) (fun _ _ => .ok [sampleKciPaper])
      = .ok ⟨[samplePubmedPaper, sampleKciPaper],
          some ⟨"acupuncture", none, 1, 1, 2⟩⟩
    ∧ (routeOptions 1 .date "general").maxResults = 1
    ∧ ¬((2 : Int) ≤ (routeOptions 1 .date "general").maxResults) := by
  refine ⟨by decide, by decide, by decide⟩

/-- C2 amended: `maxResults` is clamped to at most the fixed ceiling 20
before any backend is called and caps each backend's contribution
separately, but the aggregator performs no truncation of the merged
list: its length is exactly the sum of the two contributions, so it is
bounded by `2 * maxResults` (not by `maxResults`) when each backend
honors its cap. -/
theorem merged_bounded_by_sum_of_caps (query : String) (limit : Int)
    (sort : SortK) (mode : String) (tr : Except Unit String)
    (pm kc : List Paper) (hq : query ≠ "")
    (hpm : (pm.length : Int) ≤ (routeOptions limit sort mode).maxResults)
    (hkc : (kc.length : Int) ≤ (routeOptions limit sort mode).maxResults) :
    ∃ payload, GET query limit sort mode tr
        (fun _ _ => .ok pm) (fun _ _ => .ok kc) = .ok payload
      ∧ payload.papers.length = pm.length + kc.length
      ∧ (payload.papers.length : Int)
          ≤ 2 * (routeOptions limit sort mode).maxResults
      ∧ (routeOptions limit sort mode).maxResults ≤ 20 := by
  have h1 : GET query limit sort mode tr
      (fun _ _ => .ok pm) (fun _ _ => .ok kc)
      = .ok ⟨sortPapers (pm ++ kc),
          some ⟨query,
            if routeEnglishQuery query tr = query then none
              else some (routeEnglishQuery query tr),
            pm.length, kc.length, (sortPapers (pm ++ kc)).length⟩⟩ := by
    unfold GET
    rw [if_neg hq]
    rfl
  have hlen : (sortPapers (pm ++ kc)).length = pm.length + kc.length := by
    rw [(sortPapers_perm (pm ++ kc)).length_eq, List.length_append]
  refine ⟨_, h1, hlen, ?_, ?_⟩
  · rw [hlen]
    push_cast
    omega
  · exact min_le_right limit 20

theorem merged_bounded_by_sum_of_caps_witness :
    (("chronic pain" ≠ "")
      ∧ (([samplePubmedPaper].length : Int)
          ≤ (routeOptions 5 .date "general").maxResults)
      ∧ (([sampleKciPaper].length : Int)
          ≤ (routeOptions 5 .date "general").maxResults))
    ∧ (∃ payload, GET "chronic pain" 5 .date "general" (.error ())
          (fun _ _ => .ok [samplePubmedPaper]) (fun _ _ => .ok [sampleKciPaper])
          = .ok payload
        ∧ payload.papers.length = [samplePubmedPaper].length + [sampleKciPaper].length
        ∧ (payload.papers.length : Int)
            ≤ 2 * (routeOptions 5 .date "general").maxResults
        ∧ (routeOptions 5 .date "general").maxResults ≤ 20) :=
  ⟨⟨by decide, by decide, by decide⟩,
    merged_bounded_by_sum_of_caps "chronic pain" 5 .date "general" (.error ())
      [samplePubmedPaper] [sampleKciPaper] (by decide) (by decide) (by decide)⟩

/-! ## C3 — unparsable dates do *not* trail under the default sort -/

/-- C3 counterexample: a merged result under the default sort in which
the record with the unparsable date `"Unknown"` sits *before* the
record with the parsable date `"2024"`: the comparator returns `NaN`
(treated as `+0` by `SortCompare`) on every pair involving an
unparsable date, so such records keep their stable position instead of
trailing, refuting both the adjacent ≥ ordering and the
unparsable-last positioning. -/
theorem unparsable_date_not_trailing :
    GET "acupuncture" 10 .date "general" (.error ())
        (fun _ _ => .ok [paperUnknownDate]) (fun _ _ => .ok [paperYear2024])
      = .ok ⟨[paperUnknownDate, paperYear2024],
          some ⟨"acupuncture", none, 1, 1, 2⟩⟩
    ∧ paperTime paperUnknownDate = none
    ∧ paperTime paperYear2024 = some 1704067200000
    ∧ ¬ claimSortOrdered [paperUnknownDate, paperYear2024] := by
  refine ⟨by decide, by decide, by decide, by decide⟩

/-- C3 amended: the sort is total (it never throws — the comparator
maps every pair with an unparsable date to "equal") and always returns
a permutation of its input; when *all* merged records carry parsable
dates, the adjacent monotonicity claimed for the default sort does
hold: every adjacent pair is ordered by parsed date descending.
Records with unparsable dates, however, compare equal to everything and
keep their stable position rather than trailing. -/
theorem sort_monotone_on_parsable (query : String) (limit : Int)
    (sort : SortK) (mode : String) (tr : Except Unit String)
    (pm kc : List Paper) (hq : query ≠ "")
    (hp : ∀ p ∈ pm ++ kc, (paperTime p).isSome) :
    ∃ payload, GET query limit sort mode tr
        (fun _ _ => .ok pm) (fun _ _ => .ok kc) = .ok payload
      ∧ payload.papers.Perm (pm ++ kc)
      ∧ claimSortOrdered payload.papers := by
  have h1 : GET query limit sort mode tr
      (fun _ _ => .ok pm) (fun _ _ => .ok kc)
      = .ok ⟨sortPapers (pm ++ kc),
          some ⟨query,
            if routeEnglishQuery query tr = query then none
              else some (routeEnglishQuery query tr),
            pm.length, kc.length, (sortPapers (pm ++ kc)).length⟩⟩ := by
    unfold GET
    rw [if_neg hq]
    rfl
  refine ⟨_, h1, sortPapers_perm (pm ++ kc), ?_⟩
  exact chainDateGe_of_chain' _ (sortPapers_chain (pm ++ kc))
    fun p hmem => hp p ((sortPapers_perm (pm ++ kc)).mem_iff.mp hmem)

/-- The response of `GET` on a non-empty query, as one equation. -/
theorem GET_eq (query : String) (limit : Int) (sort : SortK) (mode : String)
    (tr : Except Unit String)
    (pmF kciF : String → SearchOptions → Settled) (hq : query ≠ "") :
    GET query limit sort mode tr pmF kciF
      = .ok ⟨sortPapers
            (contribOf (pmF (routeEnglishQuery query tr)
                (routeOptions limit sort mode))
              ++ contribOf (kciF query (routeOptions limit sort mode))),
          some ⟨query,
            (if routeEnglishQuery query tr = query then none
              else some (routeEnglishQuery query tr)),
            (contribOf (pmF (routeEnglishQuery query tr)
                (routeOptions limit sort mode))).length,
            (contribOf (kciF query (routeOptions limit sort mode))).length,
            (sortPapers
              (contribOf (pmF (routeEnglishQuery query tr)
                  (routeOptions limit sort mode))
                ++ contribOf (kciF query
                  (routeOptions limit sort mode)))).length⟩⟩ := by
  unfold GET
  rw [if_neg hq]

/-- The response of `GETexpanded` on a non-empty query, as one
equation. -/
theorem GETexpanded_eq (query : String) (limit : Int) (sort : SortK)
    (mode : String) (fullTextOnly : Bool) (category : String)
    (tr : Except Unit String)
    (pmF kciF : String → SearchOptions → Settled) (hq : query ≠ "") :
    GETexpanded query limit sort mode fullTextOnly category tr pmF kciF
      = .ok ⟨sortPapers
            (contribOf (pmF (expEnglishQuery query category tr)
                (expOptions limit sort mode fullTextOnly category))
              ++ contribOf (kciF query
                (expOptions limit sort mode fullTextOnly category))),
          some ⟨query,
            (if expEnglishQuery query category tr = query then none
              else some (expEnglishQuery query category tr)),
            (contribOf (pmF (expEnglishQuery query category tr)
                (expOptions limit sort mode fullTextOnly category))).length,
            (contribOf (kciF query
                (expOptions limit sort mode fullTextOnly category))).length,
            (sortPapers
              (contribOf (pmF (expEnglishQuery query category tr)
                  (expOptions limit sort mode fullTextOnly category))
                ++ contribOf (kciF query
                  (expOptions limit sort mode fullTextOnly category)))).length⟩⟩ := by
  unfold GETexpanded
  rw [if_neg hq]

theorem sort_monotone_on_parsable_witness :
    (("acupuncture" ≠ "")
      ∧ (∀ p ∈ [paperYear2024] ++ [paperYear2020], (paperTime p).isSome))
    ∧ (∃ payload, GET "acupuncture" 10 .date "general" (.error ())
          (fun _ _ => .ok [paperYear2024]) (fun _ _ => .ok [paperYear2020])
          = .ok payload
        ∧ payload.papers.Perm ([paperYear2024] ++ [paperYear2020])
        ∧ claimSortOrdered payload.papers) :=
  ⟨⟨by decide, by decide⟩,
    sort_monotone_on_parsable "acupuncture" 10 .date "general" (.error ())
      [paperYear2024] [paperYear2020] (by decide) (by decide)⟩

/-! ## C4 — id uniqueness and determinism -/

/-- C4 counterexample: neither adapter deduplicates, so a KCI response
in which the same native `@_article-id` appears twice produces two
records with the identical id `kci_ART001` in one aggregated result —
the ids of an aggregated result are not always pairwise distinct. -/
theorem duplicate_native_id_duplicates_ids :
    GET "herbs" 10 .date "general" (.error ())
        (fun q o => fetchPubmedPapers q ⟨.idlist [], .thrown⟩ o)
        (fun q o => fetchKciPapers q
          (.parsedRecords [(sampleKciRecord, "r1"), (sampleKciRecord, "r2")]) o)
      = .ok ⟨[kciRecordToPaper "r1" sampleKciRecord,
              kciRecordToPaper "r2" sampleKciRecord],
          some ⟨"herbs", none, 0, 2, 2⟩⟩
    ∧ (kciRecordToPaper "r1" sampleKciRecord).id = "kci_ART001"
    ∧ (kciRecordToPaper "r2" sampleKciRecord).id = "kci_ART001"
    ∧ ¬ ([kciRecordToPaper "r1" sampleKciRecord,
          kciRecordToPaper "r2" sampleKciRecord].map Paper.id).Nodup := by
  refine ⟨by decide, by decide, by decide, by decide⟩

theorem pubmed_ids_map_eq (arts : List PubmedArticle) :
    (arts.map pubmedArticleToPaper).map Paper.id
      = (arts.map pmidVal).map fun s => "pubmed_" ++ s := by
  rw [List.map_map, List.map_map]
  congr 1
  funext a
  exact pubmedArticleToPaper_id a

theorem kci_ids_map_eq (rl : List (KciRecord × String)) :
    ((rl.map fun p => kciRecordToPaper p.2 p.1).map Paper.id)
      = (rl.map fun p => kciArticleIdVal p.1 p.2).map fun s => "kci_" ++ s := by
  rw [List.map_map, List.map_map]
  rfl

theorem ids_nodup_append (pm kc : List Paper)
    (hpm : (pm.map Paper.id).Nodup) (hkc : (kc.map Paper.id).Nodup)
    (hdisj : ∀ s ∈ pm.map Paper.id, s ∉ kc.map Paper.id) :
    ((sortPapers (pm ++ kc)).map Paper.id).Nodup := by
  apply ((sortPapers_perm (pm ++ kc)).map Paper.id).symm.nodup
  rw [List.map_append]
  exact List.Nodup.append hpm hkc (List.disjoint_left.mpr hdisj)

/-- C4 amended: within one aggregated result the record ids are
pairwise distinct *provided* each backend's recovered native
identifiers (including any random draws standing in for unrecoverable
ones) are pairwise distinct within its own response — the code performs
no within-backend deduplication, so duplicate native identifiers
duplicate ids; the `pubmed_`/`kci_` prefixes keep the two backends' id
spaces disjoint.  And whenever a KCI record's native identifier is
recoverable, its id is a deterministic function of it — independent of
the random draw (the PubMed id `pubmed_<pmid>` is a pure function of
the article with no random fallback at all). -/
theorem ids_nodup_and_deterministic (query : String) (limit : Int)
    (sort : SortK) (mode : String) (tr : Except Unit String)
    (searchIds : List String) (arts : List PubmedArticle)
    (rl : List (KciRecord × String)) (hq : query ≠ "")
    (hids : searchIds ≠ []) (hpm : (arts.map pmidVal).Nodup)
    (hkc : (rl.map fun p => kciArticleIdVal p.1 p.2).Nodup) :
    (∃ payload, GET query limit sort mode tr
        (fun q o => fetchPubmedPapers q ⟨.idlist searchIds, .articles arts⟩ o)
        (fun q o => fetchKciPapers q (.parsedRecords rl) o) = .ok payload
      ∧ (payload.papers.map Paper.id).Nodup)
    ∧ (∀ (r : KciRecord) (rand rand' : String), kciNativeId r ≠ none →
        kciArticleIdVal r rand = kciArticleIdVal r rand') := by
  constructor
  · have hkciC : contribOf (fetchKciPapers query (.parsedRecords rl)
        (routeOptions limit sort mode))
        = rl.map fun p => kciRecordToPaper p.2 p.1 := by
      unfold fetchKciPapers
      rw [if_neg hq]
      rfl
    have hkcN : ((rl.map fun p => kciRecordToPaper p.2 p.1).map Paper.id).Nodup := by
      rw [kci_ids_map_eq]
      exact (List.nodup_map_iff fun x y h =>
        string_append_left_cancel h).mpr hkc
    have hpmC : contribOf (fetchPubmedPapers (routeEnglishQuery query tr)
          ⟨.idlist searchIds, .articles arts⟩ (routeOptions limit sort mode)) = []
        ∨ contribOf (fetchPubmedPapers (routeEnglishQuery query tr)
          ⟨.idlist searchIds, .articles arts⟩ (routeOptions limit sort mode))
          = arts.map pubmedArticleToPaper := by
      unfold fetchPubmedPapers
      by_cases heq : routeEnglishQuery query tr = ""
      · left
        rw [if_pos heq]
        rfl
      · right
        have hne : searchIds.isEmpty = false := by
          cases searchIds with
          | nil => exact absurd rfl hids
          | cons a t => rfl
        rw [if_neg heq]
        simp only [hne, contribOf]
        rfl
    refine ⟨_, GET_eq query limit sort mode tr _ _ hq, ?_⟩
    rw [hkciC]
    cases hpmC with
    | inl h =>
      rw [h]
      exact ids_nodup_append [] _ (by simp) hkcN (by simp)
    | inr h =>
      rw [h]
      refine ids_nodup_append _ _ ?_ hkcN ?_
      · rw [pubmed_ids_map_eq]
        exact (List.nodup_map_iff fun x y hxy =>
          string_append_left_cancel hxy).mpr hpm
      · intro s hs hsk
        rw [pubmed_ids_map_eq] at hs
        rw [kci_ids_map_eq] at hsk
        obtain ⟨x, _, hx⟩ := List.mem_map.mp hs
        obtain ⟨y, _, hy⟩ := List.mem_map.mp hsk
        exact pubmed_id_ne_kci_id x y (hx.trans hy.symm)
  · intro r rand rand' hr
    cases h : kciNativeId r with
    | none => exact absurd h hr
    | some v => simp [kciArticleIdVal, h]

theorem ids_nodup_and_deterministic_witness :
    (("ginseng" ≠ "") ∧ (["123"] ≠ ([] : List String))
      ∧ (([⟨some "123", some ⟨some "T", none, some "J", some (some "2024", some "Jan"), none, none⟩⟩,
           ⟨some "456", none⟩] : List PubmedArticle).map pmidVal).Nodup
      ∧ (([(sampleKciRecord, "r1")].map fun p => kciArticleIdVal p.1 p.2)).Nodup)
    ∧ ((∃ payload, GET "ginseng" 10 .date "general" (.error ())
          (fun q o => fetchPubmedPapers q
            ⟨.idlist ["123"],
             .articles [⟨some "123", some ⟨some "T", none, some "J", some (some "2024", some "Jan"), none, none⟩⟩,
               ⟨some "456", none⟩]⟩ o)
          (fun q o => fetchKciPapers q (.parsedRecords [(sampleKciRecord, "r1")]) o)
          = .ok payload
        ∧ (payload.papers.map Paper.id).Nodup)
      ∧ (∀ (r : KciRecord) (rand rand' : String), kciNativeId r ≠ none →
          kciArticleIdVal r rand = kciArticleIdVal r rand')) :=
  ⟨⟨by decide, by decide, by decide, by decide⟩,
    ids_nodup_and_deterministic "ginseng" 10 .date "general" (.error ())
      ["123"]
      [⟨some "123", some ⟨some "T", none, some "J", some (some "2024", some "Jan"), none, none⟩⟩,
        ⟨some "456", none⟩]
      [(sampleKciRecord, "r1")] (by decide) (by decide) (by decide) (by decide)⟩

/-! ## C6 — formulary records are pinned first (spec-modelled aggregator) -/

/-- Sample joined KampoDB details for one formula. -/
def sampleKampoDetails : KampoDetails :=
  ⟨"보중익기탕", "Hochuekkito", ["인삼", "황기"], ["피로", "식욕부진"], "2025/10/11"⟩

/-- C6: in the spec-modelled aggregation (`aggregateKampoPinned`, see
its doc comment — the pinning step is absent from `src/`), every
record the formulary adapter contributed appears before every
date-sorted record of the other backends, regardless of the formulary
records' synthesized dates: the output splits into a `KampoDB`-only
prefix followed by a `KampoDB`-free suffix. -/
theorem kampo_records_pinned_first (n : Nat) (ids : List String)
    (details : String → Option KampoDetails) (others : List Paper)
    (ho : ∀ p ∈ others, p.source ≠ Source.kampoDB) :
    ∃ a b, aggregateKampoPinned n (fetchKampoPapers ids details) others = a ++ b
      ∧ (∀ p ∈ a, p.source = Source.kampoDB)
      ∧ (∀ p ∈ b, p.source ≠ Source.kampoDB) := by
  refine ⟨(fetchKampoPapers ids details).take n,
    (sortPapers others).take (n - (fetchKampoPapers ids details).length),
    ?_, ?_, ?_⟩
  · unfold aggregateKampoPinned
    exact List.take_append_eq_append_take
  · intro p hp
    exact fetchKampoPapers_source ids details p (List.take_subset _ _ hp)
  · intro p hp
    exact ho p ((sortPapers_perm others).subset (List.take_subset _ _ hp))

theorem kampo_records_pinned_first_witness :
    (∀ p ∈ [samplePubmedPaper, sampleKciPaper], p.source ≠ Source.kampoDB)
    ∧ (∃ a b, aggregateKampoPinned 5
          (fetchKampoPapers ["F1"] fun _ => some sampleKampoDetails)
          [samplePubmedPaper, sampleKciPaper] = a ++ b
        ∧ (∀ p ∈ a, p.source = Source.kampoDB)
        ∧ (∀ p ∈ b, p.source ≠ Source.kampoDB)) :=
  ⟨by decide,
    kampo_records_pinned_first 5 ["F1"] (fun _ => some sampleKampoDetails)
      [samplePubmedPaper, sampleKciPaper] (by decide)⟩

/-! ## C7 — expansion fallback: identity only on skip or throw -/

/-- C7 counterexample: when the expansion trigger fires and the
text-generation call *returns* output — here a refusal sentence, i.e.
malformed as a search string — the route does not fall back to the
original `rawQuery`: the cleaned returned text becomes the PubMed
query.  The oracle below fulfills with a record only for the original
query `"침술"`, and contributes nothing, showing PubMed was invoked
with the cleaned prose (recorded in `meta.translatedQuery`) instead of
the raw query — refuting the claim's "returns malformed output ⇒
every backend is invoked with the original rawQuery" case.  (The code
never parses the response into structure, so no malformed-output
detection exists at all.) -/
theorem malformed_expansion_output_used_as_query :
    expandTrigger "침술" "" = true
    ∧ expEnglishQuery "침술" "" (.ok "Sorry, I cannot translate that.")
        = "Sorry, I cannot translate that"
    ∧ expEnglishQuery "침술" "" (.ok "Sorry, I cannot translate that.")
        ≠ "침술"
    ∧ GETexpanded "침술" 10 .date "general" false ""
        (.ok "Sorry, I cannot translate that.")
        (fun q _ => if q = "침술" then .ok [samplePubmedPaper] else .ok [])
        (fun _ _ => .error ())
      = .ok ⟨[], some ⟨"침술", some "Sorry, I cannot translate that", 0, 0, 0⟩⟩ := by
  refine ⟨by decide, by decide, by decide, by decide⟩

/-- C7 amended: whenever expansion is skipped (no Korean script/pipe
in the query and no category hint, i.e. the trigger is false) or the
translation call *throws*, both backends are invoked with the original
`rawQuery` unmodified, the failure is not propagated — the route still
returns a successful payload assembled from the adapters' settled
outcomes at the *original* query — and `meta.translatedQuery` is
absent.  When the call instead returns output, well-formed or not, the
cleaned returned text is sent to PubMed in place of the raw query (see
the counterexample); KCI always receives the raw query. -/
theorem expansion_fallback_identity (query : String) (limit : Int)
    (sort : SortK) (mode : String) (fullTextOnly : Bool) (category : String)
    (tr : Except Unit String)
    (pmF kciF : String → SearchOptions → Settled) (hq : query ≠ "")
    (hfb : expandTrigger query category = false ∨ tr = .error ()) :
    expEnglishQuery query category tr = query
    ∧ ∃ payload,
        GETexpanded query limit sort mode fullTextOnly category tr pmF kciF
          = .ok payload
        ∧ payload.papers.Perm
            (contribOf (pmF query (expOptions limit sort mode fullTextOnly category))
              ++ contribOf (kciF query (expOptions limit sort mode fullTextOnly category)))
        ∧ ∃ m, payload.meta = some m ∧ m.translatedQuery = none := by
  have heq : expEnglishQuery query category tr = query := by
    unfold expEnglishQuery
    cases hfb with
    | inl h => simp [h]
    | inr h =>
      subst h
      by_cases ht : expandTrigger query category <;> simp [ht]
  have hG := GETexpanded_eq query limit sort mode fullTextOnly category tr
    pmF kciF hq
  rw [heq, if_pos rfl] at hG
  exact ⟨heq, _, hG, sortPapers_perm _, _, rfl, rfl⟩

theorem expansion_fallback_identity_witness :
    (("back pain" ≠ "")
      ∧ (expandTrigger "back pain" "" = false
          ∨ (Except.ok "ignored" : Except Unit String) = .error ()))
    ∧ (expEnglishQuery "back pain" "" (.ok "ignored") = "back pain"
      ∧ ∃ payload,
          GETexpanded "back pain" 10 .date "general" false "" (.ok "ignored")
            (fun _ _ => .ok [samplePubmedPaper]) (fun _ _ => .error ())
            = .ok payload
          ∧ payload.papers.Perm
              (contribOf ((fun (_ : String) (_ : SearchOptions) =>
                  (.ok [samplePubmedPaper] : Settled)) "back pain"
                  (expOptions 10 .date "general" false ""))
                ++ contribOf ((fun (_ : String) (_ : SearchOptions) =>
                  (.error () : Settled)) "back pain"
                  (expOptions 10 .date "general" false "")))
          ∧ ∃ m, payload.meta = some m ∧ m.translatedQuery = none) :=
  ⟨⟨by decide, Or.inl (by decide)⟩,
    expansion_fallback_identity "back pain" 10 .date "general" false ""
      (.ok "ignored") (fun _ _ => .ok [samplePubmedPaper])
      (fun _ _ => .error ()) (by decide) (Or.inl (by decide))⟩

/-! ## C8 — adapter failure semantics -/

/-- C8 counterexample: an HTTP error status (500 — not documented as
"no results") and a transport error both make `fetchKciPapers` settle
*fulfilled with `[]`*, indistinguishable from a genuine empty result
set and distinct from a `Failure`/rejection — refuting "network or
transport error ⇒ Failure; HTTP error status ⇒ Failure". -/
theorem http_error_yields_success_empty :
    fetchKciPapers "acupuncture" (.httpError 500)
        (routeOptions 10 .date "general") = .ok []
    ∧ fetchKciPapers "acupuncture" .thrown
        (routeOptions 10 .date "general") = .ok []
    ∧ (Except.ok [] : Settled) ≠ .error () := by
  refine ⟨by decide, by decide, by decide⟩

/-- C8 amended: an empty backend result set does yield a successful
empty list, but network/transport errors and HTTP error statuses
*also* yield success — an empty list for KCI (any status) and for
PubMed before identifiers are resolved, and placeholder records for
PubMed after phase 1 — never a `Failure`: these adapters contain every
failure internally. -/
theorem adapter_failures_contained (q : String) (opts : SearchOptions)
    (st : Nat) (b : BatchOutcome) (hq : q ≠ "") :
    fetchKciPapers q (.httpError st) opts = .ok []
    ∧ fetchKciPapers q .thrown opts = .ok []
    ∧ fetchKciPapers q .parsedNoRecords opts = .ok []
    ∧ fetchKciPapers q (.parsedRecords []) opts = .ok []
    ∧ fetchPubmedPapers q ⟨.idlist [], b⟩ opts = .ok []
    ∧ fetchPubmedPapers q ⟨.thrown, b⟩ opts = .ok []
    ∧ ∀ ids : List String, ids ≠ [] →
        fetchPubmedPapers q ⟨.idlist ids, .thrown⟩ opts
          = .ok (ids.map pubmedPlaceholder) := by
  refine ⟨?_, ?_, ?_, ?_, ?_, ?_, ?_⟩
  · unfold fetchKciPapers; rw [if_neg hq]
  · unfold fetchKciPapers; rw [if_neg hq]
  · unfold fetchKciPapers; rw [if_neg hq]
  · unfold fetchKciPapers; rw [if_neg hq]; rfl
  · unfold fetchPubmedPapers; rw [if_neg hq]; rfl
  · unfold fetchPubmedPapers; rw [if_neg hq]
  · intro ids hids
    have hne : ids.isEmpty = false := by
      cases ids with
      | nil => exact absurd rfl hids
      | cons a t => rfl
    unfold fetchPubmedPapers
    rw [if_neg hq]
    simp only [hne]
    rfl

theorem adapter_failures_contained_witness :
    ("fatigue" ≠ "")
    ∧ (fetchKciPapers "fatigue" (.httpError 500)
          (routeOptions 10 .date "general") = .ok []
      ∧ fetchKciPapers "fatigue" .thrown
          (routeOptions 10 .date "general") = .ok []
      ∧ fetchKciPapers "fatigue" .parsedNoRecords
          (routeOptions 10 .date "general") = .ok []
      ∧ fetchKciPapers "fatigue" (.parsedRecords [])
          (routeOptions 10 .date "general") = .ok []
      ∧ fetchPubmedPapers "fatigue" ⟨.idlist [], .thrown⟩
          (routeOptions 10 .date "general") = .ok []
      ∧ fetchPubmedPapers "fatigue" ⟨.thrown, .thrown⟩
          (routeOptions 10 .date "general") = .ok []
      ∧ ∀ ids : List String, ids ≠ [] →
          fetchPubmedPapers "fatigue" ⟨.idlist ids, .thrown⟩
            (routeOptions 10 .date "general")
            = .ok (ids.map pubmedPlaceholder)) :=
  ⟨by decide,
    adapter_failures_contained "fatigue" (routeOptions 10 .date "general")
      500 .thrown (by decide)⟩

/-! ## C9 — phase-2 failure degrades to per-identifier placeholders -/

/-- C9: when phase 1 resolved identifiers and the phase-2 batch fetch
(or the parse of its response) fails, the PubMed adapter fulfills with
exactly one placeholder record per resolved identifier — same count,
id derived from the identifier (`pubmed_<id>`), "details unavailable"
markers in place of the real title/author/abstract content, and the
link to the native record. -/
theorem pubmed_phase2_placeholders (q : String) (ids : List String)
    (opts : SearchOptions) (hq : q ≠ "") (hids : ids ≠ []) :
    fetchPubmedPapers q ⟨.idlist ids, .thrown⟩ opts
      = .ok (ids.map pubmedPlaceholder)
    ∧ (ids.map pubmedPlaceholder).length = ids.length
    ∧ ∀ id ∈ ids,
        (pubmedPlaceholder id).id = "pubmed_" ++ id
        ∧ (pubmedPlaceholder id).title = "PubMed Article (ID: " ++ id ++ ")"
        ∧ (pubmedPlaceholder id).authors = "Details unavailable"
        ∧ (pubmedPlaceholder id).abstract
            = "[PubMed ID: " ++ id ++ "] Failed to load details due to timeout."
        ∧ (pubmedPlaceholder id).originalUrl
            = "https://pubmed.ncbi.nlm.nih.gov/" ++ id ++ "/" := by
  have hne : ids.isEmpty = false := by
    cases ids with
    | nil => exact absurd rfl hids
    | cons a t => rfl
  refine ⟨?_, List.length_map _ _, ?_⟩
  · unfold fetchPubmedPapers
    rw [if_neg hq]
    simp only [hne]
    rfl
  · intro id _
    exact ⟨rfl, rfl, rfl, rfl, rfl⟩

theorem pubmed_phase2_placeholders_witness :
    (("acupuncture" ≠ "") ∧ (["1111", "2222"] ≠ ([] : List String)))
    ∧ (fetchPubmedPapers "acupuncture" ⟨.idlist ["1111", "2222"], .thrown⟩
          (routeOptions 5 .date "general")
        = .ok (["1111", "2222"].map pubmedPlaceholder)
      ∧ (["1111", "2222"].map pubmedPlaceholder).length = ["1111", "2222"].length
      ∧ ∀ id ∈ ["1111", "2222"],
          (pubmedPlaceholder id).id = "pubmed_" ++ id
          ∧ (pubmedPlaceholder id).title = "PubMed Article (ID: " ++ id ++ ")"
          ∧ (pubmedPlaceholder id).authors = "Details unavailable"
          ∧ (pubmedPlaceholder id).abstract
              = "[PubMed ID: " ++ id ++ "] Failed to load details due to timeout."
          ∧ (pubmedPlaceholder id).originalUrl
              = "https://pubmed.ncbi.nlm.nih.gov/" ++ id ++ "/") :=
  ⟨⟨by decide, by decide⟩,
    pubmed_phase2_placeholders "acupuncture" ["1111", "2222"]
      (routeOptions 5 .date "general") (by decide) (by decide)⟩

end Hanuicast
